import Mathlib

/-!
A shallow embedding of the rate-guard admission engine (`src/limiters.js` and
the atomic primitives of `src/stores/memory.js`), together with theorems
settling the specified properties of the two limiting algorithms.

JS numbers are modelled as rationals (`ℚ`); `Math.floor`/`Math.ceil` become
`Int.floor`/`Int.ceil`.  Stored records can be corrupted, so stored shapes are
modelled by inductive types with explicit constructors for the corrupt cases.
-/

namespace RateGuard

/-- One element of a stored timestamps array.  `num q` is any stored value
whose JS `Number(·)` image is the (non-NaN) number `q`; `nullv` is `null`
(whose `Number` image is `0`); `nan` is any value whose `Number` image is
`NaN` (`NaN` itself, `undefined`, a non-numeric string, an object). -/
inductive TsEntry
  | num (q : ℚ)
  | nullv
  | nan
deriving DecidableEq

/-- The JS `Number(ts)` conversion performed by the filter in
`SlidingWindowLimiter.isAllowed` (limiters.js line 36); `none` models `NaN`. -/
def TsEntry.toNumber : TsEntry → Option ℚ
  | .num q => some q
  | .nullv => some 0
  | .nan => none

/-- The value `store.get(key)` returns for a window key.  `absent` covers a
missing record and every falsy value (both are replaced by `[]` via
`|| []`, limiters.js line 26); `nullRec` is a stored `null` (also falsy);
`notArray` is any truthy non-array value (replaced by `[]` by the
`Array.isArray` guard, lines 29-31). -/
inductive WindowStored
  | absent
  | nullRec
  | notArray
  | arr (entries : List TsEntry)
deriving DecidableEq

/-- The array the sliding-window check starts from (limiters.js lines 26-31). -/
def rawEntries : WindowStored → List TsEntry
  | .arr l => l
  | _ => []

/-- The filter predicate of limiters.js lines 35-38: keep `ts` iff
`Number(ts)` is not `NaN`, is `> windowStart` (strict) and `≤ now`. -/
def keepEntry (windowStart now : ℚ) (e : TsEntry) : Bool :=
  match e.toNumber with
  | some t => decide (windowStart < t) && decide (t ≤ now)
  | none => false

/-- Configuration of the sliding window limiter (limiters.js lines 10-13). -/
structure SlidingWindowLimiter where
  windowSize : ℚ
  maxRequests : ℚ
deriving DecidableEq

/-- `validTimestamps` of limiters.js lines 35-38: the retained entries. -/
def validTimestamps (cfg : SlidingWindowLimiter) (now : ℚ) (st : WindowStored) :
    List TsEntry :=
  (rawEntries st).filter (keepEntry (now - cfg.windowSize) now)

/-- The result object returned by `SlidingWindowLimiter.isAllowed`. -/
structure SWResult where
  allowed : Bool
  remaining : ℚ
  retryAfter : ℤ
  limit : ℚ
  windowSize : ℚ
deriving DecidableEq

/-- A call's outcome: the result object, plus the store write performed by the
call — `some (entries, ttl)` when the call runs `store.set(key, entries, ttl)`
(limiters.js line 58), `none` when no write happens at all. -/
structure SWOutcome where
  result : SWResult
  write : Option (List TsEntry × ℚ)
deriving DecidableEq

/-- `retryAfter` of the deny branch (limiters.js lines 44-45):
`Math.max(0, Math.ceil((Math.min(...valid) + windowSize - now) / 1000))`.
`Math.min` of an empty array is `Infinity` in JS (reachable only when
`maxRequests ≤ 0`); that case is modelled as `0` here — no claim constrains
`retryAfter` there. -/
def swRetryAfter (cfg : SlidingWindowLimiter) (now : ℚ) (valid : List TsEntry) : ℤ :=
  match (valid.filterMap TsEntry.toNumber).min? with
  | some m => max 0 ⌈(m + cfg.windowSize - now) / 1000⌉
  | none => 0

/-- The decision taken on the retained list (limiters.js lines 40-66). -/
def swDecision (cfg : SlidingWindowLimiter) (now : ℚ) (valid : List TsEntry) :
    SWOutcome :=
  if cfg.maxRequests ≤ (valid.length : ℚ) then
    { result := { allowed := false, remaining := 0,
                  retryAfter := swRetryAfter cfg now valid,
                  limit := cfg.maxRequests, windowSize := cfg.windowSize },
      write := none }
  else
    let newList := valid ++ [TsEntry.num now]
    { result := { allowed := true,
                  remaining := cfg.maxRequests - (newList.length : ℚ),
                  retryAfter := 0,
                  limit := cfg.maxRequests, windowSize := cfg.windowSize },
      write := some (newList, cfg.windowSize) }

/-- `SlidingWindowLimiter.isAllowed` (limiters.js lines 21-67), as a function
of the stored value for the key and the current instant `now`. -/
def SlidingWindowLimiter.isAllowed (cfg : SlidingWindowLimiter)
    (st : WindowStored) (now : ℚ) : SWOutcome :=
  swDecision cfg now (validTimestamps cfg now st)

/-- The store-side effect of an outcome on the record of the checked key:
`store.set` replaces the record, no write leaves it unchanged. -/
def applyWrite (st : WindowStored) (out : SWOutcome) : WindowStored :=
  match out.write with
  | some (l, _) => .arr l
  | none => st

/-- Run a sequence of checks on one key, threading the stored record. -/
def SlidingWindowLimiter.run (cfg : SlidingWindowLimiter) :
    WindowStored → List ℚ → WindowStored × List SWResult
  | st, [] => (st, [])
  | st, now :: rest =>
      let out := cfg.isAllowed st now
      let r := run cfg (applyWrite st out) rest
      (r.1, out.result :: r.2)

/-- JS `options.x || default` (limiters.js lines 11-12, 85-87): an absent
option or a falsy value (`0`; `NaN` is not modelled) is replaced by the
default, every other number — negative values included — is kept. -/
def jsOrDefault (v : Option ℚ) (d : ℚ) : ℚ :=
  match v with
  | none => d
  | some x => if x = 0 then d else x

/-- The `SlidingWindowLimiter` constructor (limiters.js lines 10-13). It never
throws: no validation is performed on the options. -/
def SlidingWindowLimiter.create (windowSize maxRequests : Option ℚ) :
    SlidingWindowLimiter :=
  { windowSize := jsOrDefault windowSize 60000,
    maxRequests := jsOrDefault maxRequests 100 }

/-! ## Token bucket limiter -/

/-- A JS object field expected to hold a number.  `num q` is a number that is
not `NaN`; `nan` is the number `NaN` — which passes a `typeof x === 'number'`
check; `other` is a value of any non-number type. -/
inductive NumField
  | num (q : ℚ)
  | nan
  | other
deriving DecidableEq

/-- The value `store.get(key)` returns for a bucket key.  `absent` is a
missing record, `nullRec` a stored `null`, `notObject` a non-object value;
`record tokens lastRefill` is an object with those two fields. -/
inductive BucketStored
  | absent
  | nullRec
  | notObject
  | record (tokens lastRefill : NumField)
deriving DecidableEq

/-! A possibly-`NaN` JS number is `Option ℚ`: `some q` a real value, `none`
is `NaN`.  Each `Math.*` operation and arithmetic operator the token bucket
uses is modelled with its JS `NaN`-propagation behaviour. -/

/-- JS `x + d`: `NaN` propagates. -/
def jsAdd : Option ℚ → ℚ → Option ℚ
  | some a, d => some (a + d)
  | none, _ => none

/-- JS `Math.min(c, x)`: `NaN` if `x` is `NaN`. -/
def jsMin (c : ℚ) : Option ℚ → Option ℚ
  | some x => some (min c x)
  | none => none

/-- JS `Math.max(c, x)`: `NaN` if `x` is `NaN`. -/
def jsMax (c : ℚ) : Option ℚ → Option ℚ
  | some x => some (max c x)
  | none => none

/-- JS `x < c`: every comparison with `NaN` is false. -/
def jsLt : Option ℚ → ℚ → Bool
  | some x, c => decide (x < c)
  | none, _ => false

/-- JS `x - c`: `NaN` propagates. -/
def jsSub : Option ℚ → ℚ → Option ℚ
  | some x, c => some (x - c)
  | none, _ => none

/-- JS `c - x`: `NaN` propagates from the right operand. -/
def jsSubFrom (c : ℚ) : Option ℚ → Option ℚ
  | some x => some (c - x)
  | none => none

/-- JS `x / r`: `NaN` propagates (division by zero is outside every claim). -/
def jsDiv : Option ℚ → ℚ → Option ℚ
  | some x, r => some (x / r)
  | none, _ => none

/-- JS `Math.floor`: `NaN` propagates. -/
def jsFloor : Option ℚ → Option ℤ
  | some x => some ⌊x⌋
  | none => none

/-- JS `Math.ceil`: `NaN` propagates. -/
def jsCeil : Option ℚ → Option ℤ
  | some x => some ⌈x⌉
  | none => none

/-- Configuration of the token bucket limiter (limiters.js lines 84-88).
`refillInterval` is recognized but unused by `isAllowed`, which hard-codes a
1000 ms refill tick (line 116). -/
structure TokenBucketLimiter where
  bucketSize : ℚ
  refillRate : ℚ
  refillInterval : ℚ
deriving DecidableEq

/-- A bucket record after the shape checks of lines 102-112: `lastRefill` is
always a real number (the line-110 guard heals non-numbers and `NaN` to
`now`), but `tokens` can still be `NaN` (`none`), since the line-102 guard
`typeof bucket.tokens !== 'number'` keeps a stored `NaN` balance. -/
structure Bucket where
  tokens : Option ℚ
  lastRefill : ℚ
deriving DecidableEq

/-- Lines 102-112 of limiters.js: a missing/invalid record, or one whose
`tokens` field is not of number type, is reinitialized full with
`lastRefill = now`; a `NaN` `tokens` passes the `typeof` guard and is kept;
a record with number-typed `tokens` and a non-number or `NaN` `lastRefill`
keeps its balance and only has `lastRefill` healed to `now`. -/
def loadBucket (cfg : TokenBucketLimiter) (now : ℚ) : BucketStored → Bucket
  | .record (.num t) lr =>
      { tokens := some t,
        lastRefill := match lr with | .num r => r | _ => now }
  | .record .nan lr =>
      { tokens := none,
        lastRefill := match lr with | .num r => r | _ => now }
  | _ => { tokens := some cfg.bucketSize, lastRefill := now }

/-- Lines 114-127 of limiters.js: elapsed-time refill, clamped to
`[0, bucketSize]`; `lastRefill` advances only when tokens were added.  A
`NaN` balance propagates through `+`, `Math.min` and `Math.max`. -/
def refill (cfg : TokenBucketLimiter) (now : ℚ) (b : Bucket) : Bucket :=
  let timePassed := max 0 (now - b.lastRefill)
  let tokensToAdd : ℤ := ⌊timePassed / 1000 * cfg.refillRate⌋
  { tokens := jsMax 0 (jsMin cfg.bucketSize (jsAdd b.tokens (tokensToAdd : ℚ))),
    lastRefill := if 0 < tokensToAdd then now else b.lastRefill }

/-- The result object returned by `TokenBucketLimiter.isAllowed`.  The source
never sets a `reason` property on it, so the modelled `reason` field is `none`
in every branch. -/
structure TBResult where
  allowed : Bool
  remaining : Option ℤ
  retryAfter : Option ℤ
  limit : ℚ
  refillRate : ℚ
  reason : Option String
deriving DecidableEq

/-- A call's outcome: the result object and the bucket the call persists via
`store.set` (both branches of limiters.js write, lines 135 and 148). -/
structure TBOutcome where
  result : TBResult
  saved : Bucket
deriving DecidableEq

/-- `TokenBucketLimiter.isAllowed` (limiters.js lines 97-157), as a function
of the stored value, the instant `now` and the requested cost `tokens`
(default 1). -/
def TokenBucketLimiter.isAllowed (cfg : TokenBucketLimiter)
    (st : BucketStored) (now : ℚ) (tokens : ℚ := 1) : TBOutcome :=
  let b := refill cfg now (loadBucket cfg now st)
  if jsLt b.tokens tokens then
    { result := { allowed := false, remaining := jsFloor b.tokens,
                  retryAfter := jsCeil (jsDiv (jsSubFrom tokens b.tokens) cfg.refillRate),
                  limit := cfg.bucketSize, refillRate := cfg.refillRate,
                  reason := none },
      saved := b }
  else
    let b2 : Bucket := { tokens := jsSub b.tokens tokens, lastRefill := b.lastRefill }
    { result := { allowed := true, remaining := jsFloor b2.tokens,
                  retryAfter := some 0,
                  limit := cfg.bucketSize, refillRate := cfg.refillRate,
                  reason := none },
      saved := b2 }

/-- The `TokenBucketLimiter` constructor (limiters.js lines 84-88). It never
throws: no validation is performed on the options. -/
def TokenBucketLimiter.create (bucketSize refillRate refillInterval : Option ℚ) :
    TokenBucketLimiter :=
  { bucketSize := jsOrDefault bucketSize 100,
    refillRate := jsOrDefault refillRate 10,
    refillInterval := jsOrDefault refillInterval 1000 }

/-! ## Key-indexed stores, `check` and `reset` -/

/-- A store's window records, one per key. -/
def WStore : Type := String → WindowStored

/-- A store's bucket records, one per key. -/
def BStore : Type := String → BucketStored

/-- A store in which no record has ever been written. -/
def freshW : WStore := fun _ => .absent

/-- A store in which no bucket has ever been written. -/
def freshB : BStore := fun _ => .absent

/-- `SlidingWindowLimiter.reset` (limiters.js lines 74-76): `store.delete(key)`. -/
def SlidingWindowLimiter.reset (s : WStore) (k : String) : WStore :=
  fun k2 => if k2 = k then .absent else s k2

/-- `TokenBucketLimiter.reset` (limiters.js lines 164-166): `store.delete(key)`. -/
def TokenBucketLimiter.reset (s : BStore) (k : String) : BStore :=
  fun k2 => if k2 = k then .absent else s k2

/-- A sliding-window check against a keyed store. -/
def SlidingWindowLimiter.check (cfg : SlidingWindowLimiter) (s : WStore)
    (k : String) (now : ℚ) : SWOutcome :=
  cfg.isAllowed (s k) now

/-- A token-bucket check against a keyed store. -/
def TokenBucketLimiter.check (cfg : TokenBucketLimiter) (s : BStore)
    (k : String) (now : ℚ) (tokens : ℚ := 1) : TBOutcome :=
  cfg.isAllowed (s k) now tokens

/-! ## Atomic store primitive (memory.js) -/

/-- `MemoryStore.atomicIncrement` (memory.js lines 176-194): under the per-key
lock, drop entries `≤ windowStart`, append `now`, store the result and return
its length.  The lock makes the whole read-modify-write indivisible, so a set
of concurrent calls on one key is equivalent to some serialization of them. -/
def atomicIncrement (ts : List ℚ) (now windowStart : ℚ) : List ℚ × ℕ :=
  let t2 := ts.filter (fun t => decide (windowStart < t)) ++ [now]
  (t2, t2.length)

/-- Modelled from the spec: the sliding-window check over the atomic store
primitive is absent from src (only its tests and the primitive itself are
present).  Per spec §4.3/§8, the check performs `atomicWindowUpdate` and
admits iff the returned count is within `maxRequests`. -/
def atomicWindowCheck (maxRequests windowMs : ℚ) (ts : List ℚ) (now : ℚ) :
    List ℚ × Bool :=
  let r := atomicIncrement ts now (now - windowMs)
  (r.1, decide ((r.2 : ℚ) ≤ maxRequests))

/-- One serialization of a batch of atomic checks on a single fresh key,
threading the stored timestamp list. -/
def atomicRun (maxRequests windowMs : ℚ) :
    List ℚ → List ℚ → List ℚ × List Bool
  | ts, [] => (ts, [])
  | ts, now :: rest =>
      let s := atomicWindowCheck maxRequests windowMs ts now
      let r := atomicRun maxRequests windowMs s.1 rest
      (r.1, s.2 :: r.2)

/-! ## Helper lemmas -/

lemma jsAdd_zero (x : Option ℚ) : jsAdd x 0 = x := by
  cases x <;> simp [jsAdd]

lemma refill_tokens_of_some (cfg : TokenBucketLimiter) (now : ℚ) (b : Bucket)
    (t : ℚ) (ht : b.tokens = some t) :
    ∃ q, (refill cfg now b).tokens = some q ∧ 0 ≤ q
      ∧ (0 ≤ cfg.bucketSize → q ≤ cfg.bucketSize) := by
  unfold refill
  simp only [ht, jsAdd, jsMin, jsMax]
  exact ⟨_, rfl, le_max_left _ _, fun hb => max_le hb (min_le_left _ _)⟩

lemma refill_tokens_of_none (cfg : TokenBucketLimiter) (now : ℚ) (b : Bucket)
    (ht : b.tokens = none) : (refill cfg now b).tokens = none := by
  unfold refill
  simp [ht, jsAdd, jsMin, jsMax]

lemma refill_tokens_shape (cfg : TokenBucketLimiter) (now : ℚ) (b : Bucket) :
    (refill cfg now b).tokens = none
    ∨ ∃ q, (refill cfg now b).tokens = some q ∧ 0 ≤ q
        ∧ (0 ≤ cfg.bucketSize → q ≤ cfg.bucketSize) := by
  cases ht : b.tokens with
  | none => exact Or.inl (refill_tokens_of_none cfg now b ht)
  | some t => exact Or.inr (refill_tokens_of_some cfg now b t ht)

lemma loadBucket_tokens_some (cfg : TokenBucketLimiter) (now : ℚ)
    (st : BucketStored) (hnn : ∀ lr, st ≠ BucketStored.record .nan lr) :
    ∃ t, (loadBucket cfg now st).tokens = some t := by
  cases st with
  | record tks lr =>
      cases tks with
      | num q => exact ⟨q, rfl⟩
      | nan => exact absurd rfl (hnn lr)
      | other => exact ⟨cfg.bucketSize, rfl⟩
  | absent => exact ⟨cfg.bucketSize, rfl⟩
  | nullRec => exact ⟨cfg.bucketSize, rfl⟩
  | notObject => exact ⟨cfg.bucketSize, rfl⟩

/-- "The persisted value is a real number lying in `[lo, hi]`" — false of a
`NaN` (`none`) value. -/
def numWithin (x : Option ℚ) (lo hi : ℚ) : Prop :=
  ∃ q, x = some q ∧ lo ≤ q ∧ q ≤ hi

/-! ## Theorems -/

/-- C8: for either limiter, `reset(key)` followed immediately by `check(key)`
produces exactly the same outcome (the full result object and the store write)
as calling `check` on a key for which no record has ever been stored. -/
theorem reset_then_check_eq_fresh_check (cfg : SlidingWindowLimiter)
    (tb : TokenBucketLimiter) (s : WStore) (b : BStore) (k : String)
    (now now2 cost : ℚ) :
    SlidingWindowLimiter.check cfg (SlidingWindowLimiter.reset s k) k now
      = SlidingWindowLimiter.check cfg freshW k now
    ∧ TokenBucketLimiter.check tb (TokenBucketLimiter.reset b k) k now2 cost
      = TokenBucketLimiter.check tb freshB k now2 cost := by
  constructor <;>
    simp [SlidingWindowLimiter.check, TokenBucketLimiter.check,
      SlidingWindowLimiter.reset, TokenBucketLimiter.reset, freshW, freshB]

/-- C10: when the sliding window limiter denies a request, it performs no
store write at all: the outcome's write is `none` and the persisted record for
the key is left exactly as it was. -/
theorem denied_window_call_writes_nothing (cfg : SlidingWindowLimiter)
    (st : WindowStored) (now : ℚ)
    (hd : (cfg.isAllowed st now).result.allowed = false) :
    (cfg.isAllowed st now).write = none
    ∧ (cfg.run st [now]).1 = st := by
  by_cases h : cfg.maxRequests ≤ ((validTimestamps cfg now st).length : ℚ)
  · constructor
    · simp [SlidingWindowLimiter.isAllowed, swDecision, h]
    · simp [SlidingWindowLimiter.run, applyWrite,
        SlidingWindowLimiter.isAllowed, swDecision, h]
  · exfalso
    simp [SlidingWindowLimiter.isAllowed, swDecision, h] at hd

theorem denied_window_call_writes_nothing_witness :
    ((⟨1000, 1⟩ : SlidingWindowLimiter).isAllowed
        (.arr [TsEntry.num 5]) 6).write = none
    ∧ ((⟨1000, 1⟩ : SlidingWindowLimiter).run (.arr [TsEntry.num 5]) [6]).1
      = .arr [TsEntry.num 5] :=
  denied_window_call_writes_nothing ⟨1000, 1⟩ (.arr [TsEntry.num 5]) 6 (by
    norm_num [SlidingWindowLimiter.isAllowed, swDecision, validTimestamps,
      rawEntries, keepEntry, TsEntry.toNumber])

/-- C9 (amended): for every prior stored bucket state whose `tokens` field is
not `NaN` — absent, `null`, non-object, non-number-typed, and out-of-range
numeric balances included — and every check with cost ≥ 0, the balance the
token bucket limiter persists at the end of the call is a real number in
`[0, bucketSize]` (for a non-negative configured bucket size).  A stored
`NaN` balance is kept by the `typeof` guard and persists as `NaN`: see the
counterexample. -/
theorem tb_persisted_tokens_in_range (cfg : TokenBucketLimiter)
    (st : BucketStored) (now cost : ℚ) (hc : 0 ≤ cost)
    (hb : 0 ≤ cfg.bucketSize)
    (hnn : ∀ lr, st ≠ BucketStored.record .nan lr) :
    numWithin (cfg.isAllowed st now cost).saved.tokens 0 cfg.bucketSize := by
  obtain ⟨t, ht⟩ := loadBucket_tokens_some cfg now st hnn
  obtain ⟨q, hq, hq0, hqb⟩ := refill_tokens_of_some cfg now _ t ht
  unfold TokenBucketLimiter.isAllowed
  by_cases h : jsLt (refill cfg now (loadBucket cfg now st)).tokens cost = true
  · rw [if_pos h]
    exact ⟨q, hq, hq0, hqb hb⟩
  · rw [if_neg h]
    have hq2 : ¬ q < cost := by
      rw [hq] at h
      simpa [jsLt] using h
    refine ⟨q - cost, ?_, by linarith [not_lt.mp hq2], by linarith [hqb hb]⟩
    show jsSub (refill cfg now (loadBucket cfg now st)).tokens cost = some (q - cost)
    rw [hq]
    rfl

theorem tb_persisted_tokens_in_range_witness :
    numWithin ((⟨10, 1, 1000⟩ : TokenBucketLimiter).isAllowed
        .absent 0 3).saved.tokens 0 (⟨10, 1, 1000⟩ : TokenBucketLimiter).bucketSize :=
  tb_persisted_tokens_in_range ⟨10, 1, 1000⟩ .absent 0 3 (by norm_num) (by norm_num)
    (fun lr h => BucketStored.noConfusion h)

/-- C9 counterexample: at the stored record `{tokens: NaN, lastRefill: 5}` —
kept as-is by the line-102 `typeof` guard, since `typeof NaN === 'number'` —
the cost-1 call is admitted (every comparison with `NaN` is false) and the
limiter persists a `NaN` balance, which is not a number in `[0, bucketSize]`. -/
theorem nan_balance_persisted_counterexample :
    ((⟨10, 1, 1000⟩ : TokenBucketLimiter).isAllowed
        (.record .nan (.num 5)) 5 1).result.allowed = true
    ∧ ((⟨10, 1, 1000⟩ : TokenBucketLimiter).isAllowed
        (.record .nan (.num 5)) 5 1).saved.tokens = none := by
  norm_num [TokenBucketLimiter.isAllowed, refill, loadBucket, jsAdd, jsMin,
    jsMax, jsLt, jsSub]

/-- C3 (amended): when the stored balance is not `NaN`, a cost greater than
`bucketSize` is always denied — the refilled balance never exceeds
`bucketSize` — but the result carries no `reason` field (the source result
object has no `reason` property); when the stored balance is `NaN` (kept by
the line-102 `typeof` guard), even an over-capacity request is admitted and
`NaN` is persisted. -/
theorem over_capacity_denied_without_reason (cfg : TokenBucketLimiter)
    (st : BucketStored) (lr : NumField) (now cost : ℚ)
    (hb : 0 ≤ cfg.bucketSize) (hc : cfg.bucketSize < cost)
    (hnn : ∀ l, st ≠ BucketStored.record .nan l) :
    ((cfg.isAllowed st now cost).result.allowed = false
      ∧ (cfg.isAllowed st now cost).result.reason = none)
    ∧ ((cfg.isAllowed (.record .nan lr) now cost).result.allowed = true
      ∧ (cfg.isAllowed (.record .nan lr) now cost).saved.tokens = none) := by
  constructor
  · obtain ⟨t, ht⟩ := loadBucket_tokens_some cfg now st hnn
    obtain ⟨q, hq, hq0, hqb⟩ := refill_tokens_of_some cfg now _ t ht
    have hlt : jsLt (refill cfg now (loadBucket cfg now st)).tokens cost = true := by
      rw [hq]
      simp only [jsLt, decide_eq_true_eq]
      exact lt_of_le_of_lt (hqb hb) hc
    unfold TokenBucketLimiter.isAllowed
    rw [if_pos hlt]
    exact ⟨rfl, rfl⟩
  · have hn : (refill cfg now (loadBucket cfg now (.record .nan lr))).tokens = none :=
      refill_tokens_of_none cfg now _ rfl
    have hlt : ¬ jsLt (refill cfg now (loadBucket cfg now (.record .nan lr))).tokens
        cost = true := by
      rw [hn]
      simp [jsLt]
    unfold TokenBucketLimiter.isAllowed
    rw [if_neg hlt]
    refine ⟨rfl, ?_⟩
    show jsSub (refill cfg now (loadBucket cfg now (.record .nan lr))).tokens cost = none
    rw [hn]
    rfl

theorem over_capacity_denied_without_reason_witness :
    (((⟨10, 1, 1000⟩ : TokenBucketLimiter).isAllowed .absent 0 15).result.allowed = false
      ∧ ((⟨10, 1, 1000⟩ : TokenBucketLimiter).isAllowed .absent 0 15).result.reason = none)
    ∧ (((⟨10, 1, 1000⟩ : TokenBucketLimiter).isAllowed
          (.record .nan (.num 0)) 0 15).result.allowed = true
      ∧ ((⟨10, 1, 1000⟩ : TokenBucketLimiter).isAllowed
          (.record .nan (.num 0)) 0 15).saved.tokens = none) :=
  over_capacity_denied_without_reason ⟨10, 1, 1000⟩ .absent (.num 0) 0 15
    (by norm_num) (by norm_num) (fun l h => BucketStored.noConfusion h)

/-- C3 counterexample: with `bucketSize = 10` and a stored `{tokens: NaN}`
record — a token balance the `typeof` guard keeps — a call with cost 15,
greater than the bucket size, is ADMITTED (every comparison with `NaN` is
false), refuting "denied regardless of the current token balance"; and its
result has no `reason` field either. -/
theorem over_capacity_nan_admitted_counterexample :
    ((⟨10, 1, 1000⟩ : TokenBucketLimiter).isAllowed
        (.record .nan (.num 0)) 0 15).result.allowed = true
    ∧ ((⟨10, 1, 1000⟩ : TokenBucketLimiter).isAllowed
        (.record .nan (.num 0)) 0 15).result.reason = none := by
  norm_num [TokenBucketLimiter.isAllowed, refill, loadBucket, jsAdd, jsMin,
    jsMax, jsLt, jsSub]

/-- C5 (amended): a check with cost ≤ 0 is NOT normalized to a minimum charge
of 1: it is always admitted (the clamped balance is never below 0, hence never
below the cost) and the persisted balance decreases by exactly the requested
cost — zero-cost requests succeed for free, negative-cost requests increase
the balance. -/
theorem nonpositive_cost_admitted_for_free (cfg : TokenBucketLimiter)
    (st : BucketStored) (now cost : ℚ) (hc : cost ≤ 0) :
    (cfg.isAllowed st now cost).result.allowed = true
    ∧ (cfg.isAllowed st now cost).saved.tokens
      = jsSub (refill cfg now (loadBucket cfg now st)).tokens cost := by
  have hlt : ¬ jsLt (refill cfg now (loadBucket cfg now st)).tokens cost = true := by
    rcases refill_tokens_shape cfg now (loadBucket cfg now st) with hn | ⟨q, hq, hq0, -⟩
    · rw [hn]
      simp [jsLt]
    · rw [hq]
      simp only [jsLt, decide_eq_true_eq, not_lt]
      exact le_trans hc hq0
  unfold TokenBucketLimiter.isAllowed
  rw [if_neg hlt]
  exact ⟨rfl, rfl⟩

theorem nonpositive_cost_admitted_for_free_witness :
    ((⟨10, 1, 1000⟩ : TokenBucketLimiter).isAllowed .absent 0 0).result.allowed = true
    ∧ ((⟨10, 1, 1000⟩ : TokenBucketLimiter).isAllowed .absent 0 0).saved.tokens
      = jsSub (refill ⟨10, 1, 1000⟩ 0 (loadBucket ⟨10, 1, 1000⟩ 0 .absent)).tokens 0 :=
  nonpositive_cost_admitted_for_free ⟨10, 1, 1000⟩ .absent 0 0 (by norm_num)

/-- C5 counterexample: a zero-cost check on a fresh bucket of size 10 is
admitted and the persisted balance stays 10 — it is not decreased by the
claimed minimum unit of 1 (which would leave 9). -/
theorem zero_cost_not_charged_counterexample :
    ((⟨10, 1, 1000⟩ : TokenBucketLimiter).isAllowed .absent 0 0).result.allowed = true
    ∧ ((⟨10, 1, 1000⟩ : TokenBucketLimiter).isAllowed .absent 0 0).saved.tokens = some 10
    ∧ ((⟨10, 1, 1000⟩ : TokenBucketLimiter).isAllowed .absent 0 0).saved.tokens
      ≠ some 9 := by
  norm_num [TokenBucketLimiter.isAllowed, refill, loadBucket, jsAdd, jsMin,
    jsMax, jsLt, jsSub]

/-- C6 (amended): the constructors perform no validation and never fail: a
falsy option (0) is silently replaced by the default, and negative values are
accepted at construction, deferring their effect to check time — a limiter
constructed with a negative `maxRequests` denies every call. -/
theorem nonpositive_config_accepted_at_construction (w m : ℚ) (hm : m < 0)
    (st : WindowStored) (now : ℚ) :
    SlidingWindowLimiter.create (some 0) (some 0)
      = ({ windowSize := 60000, maxRequests := 100 } : SlidingWindowLimiter)
    ∧ (SlidingWindowLimiter.create (some w) (some m)).maxRequests = m
    ∧ ((SlidingWindowLimiter.create (some w) (some m)).isAllowed st now).result.allowed
      = false
    ∧ TokenBucketLimiter.create (some (-1)) none none
      = ({ bucketSize := -1, refillRate := 10, refillInterval := 1000 } :
          TokenBucketLimiter) := by
  have hm0 : m ≠ 0 := ne_of_lt hm
  have hmax : (SlidingWindowLimiter.create (some w) (some m)).maxRequests = m := by
    simp [SlidingWindowLimiter.create, jsOrDefault, hm0]
  refine ⟨rfl, hmax, ?_, rfl⟩
  have hcond : (SlidingWindowLimiter.create (some w) (some m)).maxRequests
      ≤ ((validTimestamps (SlidingWindowLimiter.create (some w) (some m)) now st).length : ℚ) := by
    rw [hmax]
    exact le_trans (le_of_lt hm) (Nat.cast_nonneg _)
  simp [SlidingWindowLimiter.isAllowed, swDecision, hcond]

theorem nonpositive_config_accepted_at_construction_witness :
    SlidingWindowLimiter.create (some 0) (some 0)
      = ({ windowSize := 60000, maxRequests := 100 } : SlidingWindowLimiter)
    ∧ (SlidingWindowLimiter.create (some 7) (some (-5))).maxRequests = -5
    ∧ ((SlidingWindowLimiter.create (some 7) (some (-5))).isAllowed .absent 3).result.allowed
      = false
    ∧ TokenBucketLimiter.create (some (-1)) none none
      = ({ bucketSize := -1, refillRate := 10, refillInterval := 1000 } :
          TokenBucketLimiter) :=
  nonpositive_config_accepted_at_construction 7 (-5) (by norm_num) .absent 3

/-- C6 counterexample: constructing a sliding window limiter with
`windowSize = 0` and `maxRequests = -5` succeeds (no configuration error):
the falsy 0 is replaced by the default 60000 and the negative -5 is accepted,
and only at check time does it manifest — the very first check on a fresh key
is denied. -/
theorem construction_never_validates_counterexample :
    SlidingWindowLimiter.create (some 0) (some (-5))
      = ({ windowSize := 60000, maxRequests := -5 } : SlidingWindowLimiter)
    ∧ ((SlidingWindowLimiter.create (some 0) (some (-5))).isAllowed
        .absent 100000).result.allowed = false := by
  norm_num [SlidingWindowLimiter.create, jsOrDefault, SlidingWindowLimiter.isAllowed,
    swDecision, validTimestamps, rawEntries]

/-! ## Corrupted stored shapes (C4) -/

/-- A timestamps-array element that is not numerically valid: `NaN`-like
values (discarded by the `isNaN` guard) and `null` (whose `Number` image 0
falls outside any window starting at a non-negative instant). -/
def TsEntry.invalidEntry : TsEntry → Prop
  | .num _ => False
  | .nullv => True
  | .nan => True

/-- The window-record shapes the claim calls corrupted: absent, `null`,
non-array, or an array whose entries are all NaN/non-numeric. -/
def corruptedWindow : WindowStored → Prop
  | .absent => True
  | .nullRec => True
  | .notArray => True
  | .arr l => ∀ e ∈ l, TsEntry.invalidEntry e

/-- The bucket-record shapes that are reinitialized as a full bucket: absent,
`null`, non-object, or a record whose `tokens` field is not a number. -/
def corruptedBucket : BucketStored → Prop
  | .absent => True
  | .nullRec => True
  | .notObject => True
  | .record tks _ => tks = NumField.other

lemma validTimestamps_of_corrupted (cfg : SlidingWindowLimiter) (now : ℚ)
    (st : WindowStored) (hw : cfg.windowSize ≤ now) (hc : corruptedWindow st) :
    validTimestamps cfg now st = [] := by
  cases st with
  | arr l =>
    simp only [validTimestamps, rawEntries]
    rw [List.filter_eq_nil_iff]
    intro e he
    have hee := hc e he
    cases e with
    | num q => exact absurd hee id
    | nullv =>
      simp only [keepEntry, TsEntry.toNumber, Bool.and_eq_true, decide_eq_true_eq,
        not_and]
      intro h0
      linarith
    | nan => simp [keepEntry, TsEntry.toNumber]
  | absent => rfl
  | nullRec => rfl
  | notArray => rfl

lemma loadBucket_of_corrupted (cfg : TokenBucketLimiter) (now : ℚ)
    (st : BucketStored) (hc : corruptedBucket st) :
    loadBucket cfg now st = { tokens := some cfg.bucketSize, lastRefill := now } := by
  cases st with
  | record tks lr =>
    cases tks with
    | num q => exact absurd hc (by simp [corruptedBucket])
    | nan => exact absurd hc (by simp [corruptedBucket])
    | other => rfl
  | absent => rfl
  | nullRec => rfl
  | notObject => rfl

/-- Refilling a bucket whose `lastRefill` is the current instant changes
nothing except the clamp into `[0, bucketSize]` (`NaN` stays `NaN`). -/
lemma refill_at_now (cfg : TokenBucketLimiter) (now : ℚ) (tks : Option ℚ) :
    refill cfg now { tokens := tks, lastRefill := now }
      = { tokens := jsMax 0 (jsMin cfg.bucketSize tks), lastRefill := now } := by
  unfold refill
  simp [jsAdd_zero]

/-- C4 (amended): provided `now ≥ windowSize` (so that the window does not
extend below instant 0, where a stored `null` converts to the in-window
timestamp `Number(null) = 0`), corrupted window state — absent record,
`null`, non-array, or entries all NaN-like or `null` — behaves exactly like a
never-stored key and the call is allowed.  Bucket records that are absent,
`null`, non-object, or have a non-number-typed `tokens` field are
reinitialized full and the call is allowed.  But a record with number-typed
`tokens` and a non-number or `NaN` `lastRefill` only has `lastRefill` healed
to `now` — the balance is preserved, so such a call is NOT always allowed —
and a record with a `NaN` `tokens` is NOT reinitialized full: the `typeof`
guard keeps it, the call is admitted, and `NaN` is persisted. -/
theorem corrupted_state_self_healing
    (cfg : SlidingWindowLimiter) (tb : TokenBucketLimiter)
    (stW : WindowStored) (stB : BucketStored) (lrB : NumField) (now t : ℚ)
    (hm : 1 ≤ cfg.maxRequests) (hw : cfg.windowSize ≤ now)
    (hb : 1 ≤ tb.bucketSize)
    (hcw : corruptedWindow stW) (hcb : corruptedBucket stB) :
    (cfg.isAllowed stW now = cfg.isAllowed .absent now
      ∧ (cfg.isAllowed stW now).result.allowed = true)
    ∧ (tb.isAllowed stB now 1 = tb.isAllowed .absent now 1
      ∧ (tb.isAllowed stB now 1).result.allowed = true)
    ∧ (tb.isAllowed (.record (.num t) .other) now 1
        = tb.isAllowed (.record (.num t) (.num now)) now 1
      ∧ tb.isAllowed (.record (.num t) .nan) now 1
        = tb.isAllowed (.record (.num t) (.num now)) now 1)
    ∧ ((tb.isAllowed (.record .nan lrB) now 1).result.allowed = true
      ∧ (tb.isAllowed (.record .nan lrB) now 1).saved.tokens = none) := by
  have hvw : validTimestamps cfg now stW = [] :=
    validTimestamps_of_corrupted cfg now stW hw hcw
  have hlb : loadBucket tb now stB
      = { tokens := some tb.bucketSize, lastRefill := now } :=
    loadBucket_of_corrupted tb now stB hcb
  refine ⟨⟨?_, ?_⟩, ⟨?_, ?_⟩, ⟨?_, ?_⟩, ?_⟩
  · unfold SlidingWindowLimiter.isAllowed
    rw [hvw]
    rfl
  · unfold SlidingWindowLimiter.isAllowed
    rw [hvw]
    have hcond : ¬ cfg.maxRequests ≤ (0 : ℚ) := by linarith
    simp [swDecision, hcond]
  · unfold TokenBucketLimiter.isAllowed
    rw [hlb]
    rfl
  · unfold TokenBucketLimiter.isAllowed
    rw [hlb, refill_at_now]
    have htk : jsMax 0 (jsMin tb.bucketSize (some tb.bucketSize))
        = some tb.bucketSize := by
      simp only [jsMin, min_self, jsMax]
      rw [max_eq_right (by linarith)]
    rw [htk]
    have hlt : ¬ jsLt (some tb.bucketSize) 1 = true := by
      simp only [jsLt, decide_eq_true_eq, not_lt]
      linarith
    rw [if_neg hlt]
  · unfold TokenBucketLimiter.isAllowed
    rfl
  · unfold TokenBucketLimiter.isAllowed
    rfl
  · have hn : (refill tb now (loadBucket tb now (.record .nan lrB))).tokens = none :=
      refill_tokens_of_none tb now _ rfl
    have hlt : ¬ jsLt (refill tb now (loadBucket tb now (.record .nan lrB))).tokens
        (1 : ℚ) = true := by
      rw [hn]
      simp [jsLt]
    unfold TokenBucketLimiter.isAllowed
    rw [if_neg hlt]
    refine ⟨rfl, ?_⟩
    show jsSub (refill tb now (loadBucket tb now (.record .nan lrB))).tokens 1 = none
    rw [hn]
    rfl

theorem corrupted_state_self_healing_witness :
    (((⟨1000, 3⟩ : SlidingWindowLimiter).isAllowed (.arr [TsEntry.nan, TsEntry.nullv]) 2000
        = (⟨1000, 3⟩ : SlidingWindowLimiter).isAllowed .absent 2000)
      ∧ ((⟨1000, 3⟩ : SlidingWindowLimiter).isAllowed
          (.arr [TsEntry.nan, TsEntry.nullv]) 2000).result.allowed = true)
    ∧ (((⟨5, 1, 1000⟩ : TokenBucketLimiter).isAllowed (.record .other (.num 7)) 2000 1
        = (⟨5, 1, 1000⟩ : TokenBucketLimiter).isAllowed .absent 2000 1)
      ∧ (((⟨5, 1, 1000⟩ : TokenBucketLimiter)).isAllowed
          (.record .other (.num 7)) 2000 1).result.allowed = true)
    ∧ ((⟨5, 1, 1000⟩ : TokenBucketLimiter).isAllowed (.record (.num 3) .other) 2000 1
        = (⟨5, 1, 1000⟩ : TokenBucketLimiter).isAllowed (.record (.num 3) (.num 2000)) 2000 1
      ∧ (⟨5, 1, 1000⟩ : TokenBucketLimiter).isAllowed (.record (.num 3) .nan) 2000 1
        = (⟨5, 1, 1000⟩ : TokenBucketLimiter).isAllowed (.record (.num 3) (.num 2000)) 2000 1)
    ∧ (((⟨5, 1, 1000⟩ : TokenBucketLimiter).isAllowed
          (.record .nan (.num 7)) 2000 1).result.allowed = true
      ∧ ((⟨5, 1, 1000⟩ : TokenBucketLimiter).isAllowed
          (.record .nan (.num 7)) 2000 1).saved.tokens = none) :=
  corrupted_state_self_healing ⟨1000, 3⟩ ⟨5, 1, 1000⟩
    (.arr [TsEntry.nan, TsEntry.nullv]) (.record .other (.num 7)) (.num 7) 2000 3
    (by norm_num) (by norm_num) (by norm_num)
    (by simp [corruptedWindow, TsEntry.invalidEntry]) rfl

/-- C4 counterexample: a stored bucket `{tokens: 0, lastRefill: <non-number>}`
is corrupted in the claim's sense (non-numeric `lastRefill`), yet the check
with default cost 1 is denied — the state is not treated as a full bucket. -/
theorem corrupted_lastRefill_denied_counterexample :
    ((⟨10, 1, 1000⟩ : TokenBucketLimiter).isAllowed
        (.record (.num 0) .other) 5 1).result.allowed = false := by
  norm_num [TokenBucketLimiter.isAllowed, refill, loadBucket, jsAdd, jsMin,
    jsMax, jsLt, jsSub]

/-- C1: once the number of retained (in-window, numerically valid) timestamps
has reached `maxRequests`, the check denies with `remaining = 0`; and every
list of timestamps the limiter persists has length at most `maxRequests`
(for an integer-valued `maxRequests` configuration). -/
theorem window_at_capacity_denies_and_writes_bounded
    (cfg : SlidingWindowLimiter) (st : WindowStored) (now : ℚ) (m : ℤ)
    (hm : cfg.maxRequests = (m : ℚ)) :
    (cfg.maxRequests ≤ ((validTimestamps cfg now st).length : ℚ) →
      (cfg.isAllowed st now).result.allowed = false
      ∧ (cfg.isAllowed st now).result.remaining = 0)
    ∧ ∀ l ttl, (cfg.isAllowed st now).write = some (l, ttl) →
        (l.length : ℚ) ≤ cfg.maxRequests := by
  by_cases h : cfg.maxRequests ≤ ((validTimestamps cfg now st).length : ℚ)
  · constructor
    · intro _
      constructor <;> simp [SlidingWindowLimiter.isAllowed, swDecision, h]
    · intro l ttl hl
      simp [SlidingWindowLimiter.isAllowed, swDecision, h] at hl
  · constructor
    · intro hc
      exact absurd hc h
    · intro l ttl hl
      simp only [SlidingWindowLimiter.isAllowed, swDecision, if_neg h,
        Option.some_inj, Prod.mk.injEq] at hl
      obtain ⟨hl1, -⟩ := hl
      rw [← hl1, hm]
      push_neg at h
      rw [hm] at h
      have hz : ((validTimestamps cfg now st).length : ℤ) < m := by exact_mod_cast h
      have hz1 : ((validTimestamps cfg now st).length : ℤ) + 1 ≤ m := hz
      have : ((validTimestamps cfg now st ++ [TsEntry.num now]).length : ℤ) ≤ m := by
        simpa using hz1
      exact_mod_cast this

theorem window_at_capacity_denies_witness :
    ((⟨1000, 2⟩ : SlidingWindowLimiter).isAllowed
        (.arr [TsEntry.num 10, TsEntry.num 20]) 20).result.allowed = false
    ∧ ((⟨1000, 2⟩ : SlidingWindowLimiter).isAllowed
        (.arr [TsEntry.num 10, TsEntry.num 20]) 20).result.remaining = 0 :=
  (window_at_capacity_denies_and_writes_bounded ⟨1000, 2⟩
      (.arr [TsEntry.num 10, TsEntry.num 20]) 20 2 rfl).1
    (by norm_num [validTimestamps, rawEntries, keepEntry, TsEntry.toNumber])

/-! ## Sequences of in-window calls (C2) -/

lemma run_results_from_admitted (ws : ℚ) (m : ℕ) (pending : List ℚ) :
    ∀ (done : List ℚ) (st : WindowStored),
      rawEntries st = done.map TsEntry.num →
      (done ++ pending).Sorted (· ≤ ·) →
      (∀ x ∈ done ++ pending, ∀ y ∈ done ++ pending, y - x < ws) →
      done.length + pending.length ≤ m →
      (SlidingWindowLimiter.run ⟨ws, (m : ℚ)⟩ st pending).2
        = (List.range pending.length).map (fun i =>
            { allowed := true,
              remaining := (m : ℚ) - ((done.length + i + 1 : ℕ) : ℚ),
              retryAfter := 0, limit := (m : ℚ), windowSize := ws }) := by
  induction pending with
  | nil =>
      intro done st hst hsort hwin hlen
      simp [SlidingWindowLimiter.run]
  | cons now rest ih =>
      intro done st hst hsort hwin hlen
      have hval : validTimestamps ⟨ws, (m : ℚ)⟩ now st = done.map TsEntry.num := by
        unfold validTimestamps
        rw [hst]
        apply List.filter_eq_self.mpr
        intro e he
        obtain ⟨x, hx, rfl⟩ := List.mem_map.mp he
        have hxy : x ≤ now := by
          have h3 := (List.pairwise_append.mp hsort).2.2
          exact h3 x hx now (List.mem_cons_self _ _)
        have hyx : now - x < ws :=
          hwin x (List.mem_append_left _ hx) now
            (List.mem_append_right _ (List.mem_cons_self _ _))
        simp only [keepEntry, TsEntry.toNumber, Bool.and_eq_true, decide_eq_true_eq]
        exact ⟨by linarith, hxy⟩
      have hlen1 : done.length + 1 ≤ m := by
        simp only [List.length_cons] at hlen
        omega
      have hcount : ¬ ((m : ℚ) ≤ ((done.map TsEntry.num).length : ℚ)) := by
        simp only [List.length_map, not_le]
        exact_mod_cast Nat.lt_of_lt_of_le (Nat.lt_succ_self _) hlen1
      have hle : (done ++ [now]) ++ rest = done ++ now :: rest := by
        rw [List.append_assoc, List.singleton_append]
      have hsort2 : ((done ++ [now]) ++ rest).Sorted (· ≤ ·) := by
        rw [hle]; exact hsort
      have hwin2 : ∀ x ∈ (done ++ [now]) ++ rest, ∀ y ∈ (done ++ [now]) ++ rest,
          y - x < ws := by
        rw [hle]; exact hwin
      have hlen2 : (done ++ [now]).length + rest.length ≤ m := by
        simp only [List.length_append, List.length_cons, List.length_nil]
          at hlen ⊢
        omega
      have hih := ih (done ++ [now]) (.arr ((done ++ [now]).map TsEntry.num))
        rfl hsort2 hwin2 hlen2
      simp only [SlidingWindowLimiter.run, SlidingWindowLimiter.isAllowed, hval,
        swDecision, if_neg hcount, applyWrite]
      rw [List.map_append] at hih
      simp only [List.map_cons, List.map_nil] at hih
      rw [hih]
      simp only [List.length_cons, List.range_succ_eq_map, List.map_cons,
        List.map_map]
      congr 1
      · simp
      · apply List.map_congr_left
        intro i _
        simp only [Function.comp_apply, List.length_append, List.length_cons,
          List.length_nil, SWResult.mk.injEq, true_and, and_true]
        congr 1
        push_cast
        ring

/-- C2: starting from an absent record, a sequence of at most `maxRequests`
checks on one key, all within one window of each other, is entirely admitted
and `remaining` decreases by exactly 1 on each successive call
(`maxRequests - 1`, `maxRequests - 2`, …). -/
theorem window_sequence_all_allowed (ws : ℚ) (m : ℕ) (ts : List ℚ)
    (hsort : ts.Sorted (· ≤ ·))
    (hwin : ∀ x ∈ ts, ∀ y ∈ ts, y - x < ws)
    (hlen : ts.length ≤ m) :
    (SlidingWindowLimiter.run ⟨ws, (m : ℚ)⟩ .absent ts).2
      = (List.range ts.length).map (fun i =>
          { allowed := true,
            remaining := (m : ℚ) - ((i + 1 : ℕ) : ℚ),
            retryAfter := 0, limit := (m : ℚ), windowSize := ws }) := by
  have h := run_results_from_admitted ws m ts [] .absent rfl
    (by simpa using hsort) (by simpa using hwin) (by simpa using hlen)
  simpa using h

theorem window_sequence_all_allowed_witness :
    (SlidingWindowLimiter.run ⟨1000, (5 : ℕ)⟩ .absent [0, 1, 2, 3, 4]).2
      = (List.range 5).map (fun i =>
          { allowed := true,
            remaining := ((5 : ℕ) : ℚ) - ((i + 1 : ℕ) : ℚ),
            retryAfter := 0, limit := ((5 : ℕ) : ℚ), windowSize := 1000 }) :=
  window_sequence_all_allowed 1000 5 [0, 1, 2, 3, 4]
    (by norm_num [List.Sorted]) (by norm_num) (by norm_num)

/-! ## Concurrent calls through the atomic primitive (C7) -/

lemma atomicRun_replicate (M : ℕ) (wm t : ℚ) (hW : 0 < wm) (n : ℕ) :
    ∀ i : ℕ,
      atomicRun (M : ℚ) wm (List.replicate i t) (List.replicate n t)
        = (List.replicate (i + n) t,
           (List.range n).map (fun j => decide ((i + j + 1 : ℕ) ≤ M))) := by
  induction n with
  | zero =>
      intro i
      simp [atomicRun]
  | succ n ihn =>
      intro i
      have hfil : (List.replicate i t).filter (fun x => decide (t - wm < x))
          = List.replicate i t := by
        apply List.filter_eq_self.mpr
        intro a ha
        have ha2 : a = t := List.eq_of_mem_replicate ha
        subst ha2
        simp only [decide_eq_true_eq]
        linarith
      have hap : List.replicate i t ++ [t] = List.replicate (i + 1) t :=
        (List.replicate_succ' i t).symm
      rw [List.replicate_succ]
      simp only [atomicRun, atomicWindowCheck, atomicIncrement, hfil, hap]
      rw [ihn (i + 1)]
      refine Prod.ext ?_ ?_
      · simp only []
        congr 1
        omega
      · simp only [List.length_replicate, List.range_succ_eq_map,
          List.map_cons, List.map_map]
        congr 1
        · rw [decide_eq_decide]
          exact_mod_cast Iff.rfl
        · apply List.map_congr_left
          intro j _
          simp only [Function.comp_apply]
          rw [decide_eq_decide]
          omega

/-- C7: through the atomic store primitive (whose per-key lock serializes the
concurrent calls on one key into some order), a batch of `maxRequests + K`
simultaneous calls on a fresh key admits exactly `maxRequests` and denies
exactly `K` — indeed the serialized decision list is exactly `maxRequests`
admissions followed by `K` denials, each decision observing exactly the calls
serialized before it. -/
theorem atomic_concurrent_admits_exactly (M K : ℕ) (wm t : ℚ) (hW : 0 < wm) :
    (atomicRun (M : ℚ) wm [] (List.replicate (M + K) t)).2
      = List.replicate M true ++ List.replicate K false
    ∧ ((atomicRun (M : ℚ) wm [] (List.replicate (M + K) t)).2).count true = M
    ∧ ((atomicRun (M : ℚ) wm [] (List.replicate (M + K) t)).2).count false = K := by
  have h0 := atomicRun_replicate M wm t hW (M + K) 0
  have hmain : (atomicRun (M : ℚ) wm [] (List.replicate (M + K) t)).2
      = List.replicate M true ++ List.replicate K false := by
    rw [show ([] : List ℚ) = List.replicate 0 t from rfl, h0]
    simp only [List.range_add, List.map_append, List.map_map]
    congr 1
    · refine List.eq_replicate_iff.mpr ⟨by simp, ?_⟩
      intro b hb
      obtain ⟨j, hj, rfl⟩ := List.mem_map.mp hb
      have hjM : j < M := List.mem_range.mp hj
      simp only [decide_eq_true_eq]
      omega
    · refine List.eq_replicate_iff.mpr ⟨by simp, ?_⟩
      intro b hb
      obtain ⟨j, hj, rfl⟩ := List.mem_map.mp hb
      simp only [Function.comp_apply, decide_eq_false_iff_not]
      omega
  refine ⟨hmain, ?_, ?_⟩ <;> rw [hmain] <;>
    simp [List.count_append, List.count_replicate]

theorem atomic_concurrent_admits_exactly_witness :
    (atomicRun ((5 : ℕ) : ℚ) 1000 [] (List.replicate (5 + 2) 0)).2
      = List.replicate 5 true ++ List.replicate 2 false
    ∧ ((atomicRun ((5 : ℕ) : ℚ) 1000 [] (List.replicate (5 + 2) 0)).2).count true = 5
    ∧ ((atomicRun ((5 : ℕ) : ℚ) 1000 [] (List.replicate (5 + 2) 0)).2).count false = 2 :=
  atomic_concurrent_admits_exactly 5 2 1000 0 (by norm_num)

end RateGuard
